import Mathlib

/-
  Shallow embedding of src/shared/types/models.py (HabitCraft shared type
  definitions, built on pydantic v1 BaseModel).

  Modelling conventions:
  - A raw inbound payload field is `Option α` where `none` means the field is
    absent from the input mapping; for fields whose Python type is
    `Optional[...]` (so an explicit JSON null is itself a legal value) the raw
    field is `Option (Option α)`: `none` = absent, `some none` = explicit null,
    `some (some x)` = value.
  - Construction of a model collects one error per violated field, as pydantic
    does, and returns `Except (List FieldError) Model`.
  - `datetime`/`date` values are opaque scalars in this layer (never inspected),
    embedded as `Int` timestamps.
  - Python `float` values are only stored by this layer, never computed with,
    so `completion_rate` is embedded as `Rat`.
  - Python `re.match` with the pattern `^#[0-9A-Fa-f]{6}$` accepts a match at
    the start of the string whose `$` lands at the end of the string or just
    before a single trailing newline; `hexColorMatch` reproduces exactly that.
-/

instance {ε α : Type} [DecidableEq ε] [DecidableEq α] : DecidableEq (Except ε α) :=
  fun a b =>
    match a, b with
    | .ok x, .ok y =>
      if h : x = y then .isTrue (by rw [h])
      else .isFalse (by intro hc; cases hc; exact h rfl)
    | .error x, .error y =>
      if h : x = y then .isTrue (by rw [h])
      else .isFalse (by intro hc; cases hc; exact h rfl)
    | .ok _, .error _ => .isFalse (by intro hc; cases hc)
    | .error _, .ok _ => .isFalse (by intro hc; cases hc)

namespace HabitCraft

/-- One (field, reason) pair of a pydantic ValidationError. -/
structure FieldError where
  field : String
  msg : String
deriving DecidableEq

/-- The errors contributed by one field check: none if it passed. -/
def vErrs {α : Type} (x : Except FieldError α) : List FieldError :=
  match x with
  | .ok _ => []
  | .error e => [e]

/-- HabitFrequency = Literal[daily, weekly, custom] -/
inductive HabitFrequency
  | daily
  | weekly
  | custom
deriving DecidableEq

def HabitFrequency.toStr : HabitFrequency → String
  | .daily => "daily"
  | .weekly => "weekly"
  | .custom => "custom"

/-- HabitStatus = Literal[active, archived] -/
inductive HabitStatus
  | active
  | archived
deriving DecidableEq

def HabitStatus.toStr : HabitStatus → String
  | .active => "active"
  | .archived => "archived"

/-- A raw entry of the inbound target_days list: a Python int, bool, float or
str. Pydantic v1 type-validates a `List[int]` item by coercing it with
`int(v)` BEFORE any `@validator` (without pre=True) runs, so these all reach
`validate_target_days` already as ints when coercion succeeds. -/
inductive RawDay
  | int (n : Int)
  | bool (b : Bool)
  | float (x : Rat)
  | str (s : String)
deriving DecidableEq

/-- 0 <= day <= 6, the bound tested by `validate_target_days`. -/
def dayInRange (n : Int) : Bool := decide (0 ≤ n) && decide (n ≤ 6)

/-- Whitespace stripped by Python `int(str)`. -/
def pySpace (c : Char) : Bool :=
  c == ' ' || c == '\t' || c == '\n' || c == '\r' || c == '\x0b' || c == '\x0c'

def isAsciiDigit (c : Char) : Bool := ('0' ≤ c) && (c ≤ '9')

/-- After a first digit, Python int literals allow further digits with single
underscores strictly between digits. -/
def pyDigitsRest : List Char → Bool
  | [] => true
  | ['_'] => false
  | '_' :: c :: rest => isAsciiDigit c && pyDigitsRest rest
  | c :: rest => isAsciiDigit c && pyDigitsRest rest

/-- A non-empty digit sequence with optional single underscores between
digits. -/
def pyDigits : List Char → Bool
  | [] => false
  | c :: rest => isAsciiDigit c && pyDigitsRest rest

/-- The decimal value of such a sequence, skipping underscores. -/
def digitsToNat (cs : List Char) : Nat :=
  cs.foldl (fun acc c => if c == '_' then acc else acc * 10 + (c.toNat - '0'.toNat)) 0

/-- Python `int(s)` on an ASCII decimal string: surrounding whitespace
stripped, one optional sign, then digits (with single underscores between
digits). Python additionally maps non-ASCII Unicode decimal digits, which no
input of this development uses and which are not modelled. -/
def pyParseInt (s : String) : Option Int :=
  let cs := ((s.data.dropWhile pySpace).reverse.dropWhile pySpace).reverse
  match cs with
  | '+' :: body => if pyDigits body then some (digitsToNat body : Int) else none
  | '-' :: body => if pyDigits body then some (-(digitsToNat body : Int)) else none
  | body => if pyDigits body then some (digitsToNat body : Int) else none

/-- Truncation toward zero, as Python `int(float)` rounds. -/
def ratTrunc (x : Rat) : Int := if 0 ≤ x then x.floor else x.ceil

/-- Pydantic v1 `int_validator` (`int(v)` in essence): ints kept, bools
become 0/1, finite floats truncate toward zero, decimal strings parse;
anything else raises the int-parse error. -/
def RawDay.coerce : RawDay → Option Int
  | .int n => some n
  | .bool b => some (if b then 1 else 0)
  | .float x => some (ratTrunc x)
  | .str s => pyParseInt s

/-- The coerced value an entry reaches the validator with (0 is a dummy for
entries whose coercion fails and never reach it). -/
def RawDay.toInt (d : RawDay) : Int := (d.coerce).getD 0

/-- Item-wise coercion of the whole list: pydantic fails the field when any
item fails to coerce. -/
def coerceDays : List RawDay → Option (List Int)
  | [] => some []
  | d :: rest =>
    match d.coerce, coerceDays rest with
    | some n, some ns => some (n :: ns)
    | _, _ => none

/-- One hex digit of the character class `[0-9A-Fa-f]`. -/
def isHexDigitB (c : Char) : Bool :=
  (('0' ≤ c) && (c ≤ '9')) || (('A' ≤ c) && (c ≤ 'F')) || (('a' ≤ c) && (c ≤ 'f'))

/-- An exact match of `#[0-9A-Fa-f]{6}` against a whole character list. -/
def hexColorCore : List Char → Bool
  | '#' :: rest => (rest.length == 6) && rest.all isHexDigitB
  | _ => false

/-- `re.match(r"^#[0-9A-Fa-f]{6}$", s) is not None` in Python: the pattern
must match from the start of `s`, and `$` accepts either the end of the string
or the position just before one trailing newline. -/
def hexColorMatch (s : String) : Bool :=
  hexColorCore s.data ||
    (match s.data.getLast? with
     | some c => (c == '\n') && hexColorCore s.data.dropLast
     | none => false)

/-- Membership of `s` in the language of the anchored regex
`^#[0-9A-Fa-f]{6}$` itself: exactly a `#` followed by six hex digits.
This is the reading the specification uses. -/
def specHexMatch (s : String) : Bool := hexColorCore s.data

/-- name: str = Field(..., min_length=1, max_length=100) -/
def checkName (v : Option String) : Except FieldError String :=
  match v with
  | none => .error ⟨"name", "field required"⟩
  | some s =>
    if s.length < 1 then .error ⟨"name", "ensure this value has at least 1 characters"⟩
    else if 100 < s.length then .error ⟨"name", "ensure this value has at most 100 characters"⟩
    else .ok s

/-- description: Optional[str] = Field(None, max_length=500). Absent and
explicit null coincide (the default is itself None). -/
def checkDescription (v : Option String) : Except FieldError (Option String) :=
  match v with
  | none => .ok none
  | some s =>
    if 500 < s.length then .error ⟨"description", "ensure this value has at most 500 characters"⟩
    else .ok (some s)

/-- frequency: HabitFrequency (required literal). -/
def checkFrequency (v : Option String) : Except FieldError HabitFrequency :=
  match v with
  | none => .error ⟨"frequency", "field required"⟩
  | some "daily" => .ok .daily
  | some "weekly" => .ok .weekly
  | some "custom" => .ok .custom
  | some _ => .error ⟨"frequency", "unexpected value; permitted: daily, weekly, custom"⟩

/-- target_days: Optional[List[int]] = Field(default_factory=list).
Pydantic first type-validates the field, coercing each item to int (failing
with the int-parse error if an item cannot coerce); only then does
validate_target_days run on the coerced ints: `if v:` skips the loop for
None and the empty list, its `isinstance(day, int)` test is vacuous
post-coercion, and each day must lie in [0, 6]. -/
def checkTargetDays (v : Option (Option (List RawDay))) :
    Except FieldError (Option (List Int)) :=
  let applied : Option (List RawDay) :=
    match v with
    | none => some []
    | some w => w
  match applied with
  | none => .ok none
  | some l =>
    match coerceDays l with
    | none => .error ⟨"target_days", "value is not a valid integer"⟩
    | some ns =>
      if ns.all dayInRange then .ok (some ns)
      else .error ⟨"target_days", "target_days must contain integers between 0 and 6"⟩

/-- color: Optional[str] = Field(default=#3B82F6), then validate_color:
`if v and not re.match(...)` raises, so None and the empty string pass
untouched. -/
def checkColor (v : Option (Option String)) : Except FieldError (Option String) :=
  let applied : Option String :=
    match v with
    | none => some "#3B82F6"
    | some w => w
  match applied with
  | none => .ok none
  | some s =>
    if (!(s == "")) && !(hexColorMatch s) then
      .error ⟨"color", "Color must be a valid hex color code"⟩
    else .ok (some s)

/-- icon: Optional[str] = Field(default=star glyph); no validator. -/
def checkIcon (v : Option (Option String)) : Except FieldError (Option String) :=
  .ok (match v with
       | none => some "⭐"
       | some w => w)

/-- status: HabitStatus = active (literal with default). -/
def checkStatus (v : Option String) : Except FieldError HabitStatus :=
  match v with
  | none => .ok .active
  | some "active" => .ok .active
  | some "archived" => .ok .archived
  | some _ => .error ⟨"status", "unexpected value; permitted: active, archived"⟩

/-- A plain required str field (id, user_id, token, ...). -/
def checkReqStr (field : String) (v : Option String) : Except FieldError String :=
  match v with
  | none => .error ⟨field, "field required"⟩
  | some s => .ok s

/-- A required datetime/date field, opaque to this layer. -/
def checkDatetime (field : String) (v : Option Int) : Except FieldError Int :=
  match v with
  | none => .error ⟨field, "field required"⟩
  | some t => .ok t

/-- A required int field. -/
def checkInt (field : String) (v : Option Int) : Except FieldError Int :=
  match v with
  | none => .error ⟨field, "field required"⟩
  | some n => .ok n

/-- A required float field (stored, never computed with). -/
def checkFloat (field : String) (v : Option Rat) : Except FieldError Rat :=
  match v with
  | none => .error ⟨field, "field required"⟩
  | some x => .ok x

/-- Modelled from the spec: EmailStr (pydantic library type, not part of the
repository source) - the email must be a syntactically valid address: one @
separating a non-empty local part from a non-empty domain containing a dot. -/
def emailValid (s : String) : Bool :=
  let cs := s.data
  let lp := cs.takeWhile (fun c => c != '@')
  match cs.dropWhile (fun c => c != '@') with
  | '@' :: dp => (!lp.isEmpty) && (!dp.isEmpty) && (!dp.contains '@') && dp.contains '.'
  | _ => false

/-- email: EmailStr (required). -/
def checkEmail (v : Option String) : Except FieldError String :=
  match v with
  | none => .error ⟨"email", "field required"⟩
  | some s =>
    if emailValid s then .ok s
    else .error ⟨"email", "value is not a valid email address"⟩

/-- The raw inbound mapping for HabitInput. -/
structure RawHabitInput where
  name : Option String
  description : Option String
  frequency : Option String
  target_days : Option (Option (List RawDay))
  color : Option (Option String)
  icon : Option (Option String)
deriving DecidableEq

/-- The validated HabitInput record. -/
structure HabitInput where
  name : String
  description : Option String
  frequency : HabitFrequency
  target_days : Option (List Int)
  color : Option String
  icon : Option String
deriving DecidableEq

/-- All field errors of a HabitInput construction, in field declaration
order, as pydantic collects them. -/
def errListHI (r : RawHabitInput) : List FieldError :=
  vErrs (checkName r.name) ++ vErrs (checkDescription r.description) ++
  vErrs (checkFrequency r.frequency) ++ vErrs (checkTargetDays r.target_days) ++
  vErrs (checkColor r.color) ++ vErrs (checkIcon r.icon)

/-- Constructing a HabitInput from a raw mapping: every field is validated;
the record is produced only when all pass, otherwise all collected errors are
raised together. -/
def mkHabitInput (r : RawHabitInput) : Except (List FieldError) HabitInput :=
  match checkName r.name, checkDescription r.description, checkFrequency r.frequency,
        checkTargetDays r.target_days, checkColor r.color, checkIcon r.icon with
  | .ok n, .ok d, .ok f, .ok td, .ok c, .ok i =>
    .ok { name := n, description := d, frequency := f, target_days := td,
          color := c, icon := i }
  | _, _, _, _, _, _ => .error (errListHI r)

/-- The raw inbound mapping for Habit (HabitInput fields plus id, user_id,
status, created_at, updated_at). -/
structure RawHabit where
  name : Option String
  description : Option String
  frequency : Option String
  target_days : Option (Option (List RawDay))
  color : Option (Option String)
  icon : Option (Option String)
  id : Option String
  user_id : Option String
  status : Option String
  created_at : Option Int
  updated_at : Option Int
deriving DecidableEq

/-- The validated Habit record (class Habit(HabitInput)). -/
structure Habit where
  name : String
  description : Option String
  frequency : HabitFrequency
  target_days : Option (List Int)
  color : Option String
  icon : Option String
  id : String
  user_id : String
  status : HabitStatus
  created_at : Int
  updated_at : Int
deriving DecidableEq

/-- All field errors of a Habit construction. -/
def errListH (r : RawHabit) : List FieldError :=
  vErrs (checkName r.name) ++ vErrs (checkDescription r.description) ++
  vErrs (checkFrequency r.frequency) ++ vErrs (checkTargetDays r.target_days) ++
  vErrs (checkColor r.color) ++ vErrs (checkIcon r.icon) ++
  vErrs (checkReqStr "id" r.id) ++ vErrs (checkReqStr "user_id" r.user_id) ++
  vErrs (checkStatus r.status) ++ vErrs (checkDatetime "created_at" r.created_at) ++
  vErrs (checkDatetime "updated_at" r.updated_at)

/-- Constructing a Habit from a raw mapping. -/
def mkHabit (r : RawHabit) : Except (List FieldError) Habit :=
  match checkName r.name, checkDescription r.description, checkFrequency r.frequency,
        checkTargetDays r.target_days, checkColor r.color, checkIcon r.icon,
        checkReqStr "id" r.id, checkReqStr "user_id" r.user_id, checkStatus r.status,
        checkDatetime "created_at" r.created_at, checkDatetime "updated_at" r.updated_at with
  | .ok n, .ok d, .ok f, .ok td, .ok c, .ok i, .ok hid, .ok uid, .ok st, .ok ca, .ok ua =>
    .ok { name := n, description := d, frequency := f, target_days := td,
          color := c, icon := i, id := hid, user_id := uid, status := st,
          created_at := ca, updated_at := ua }
  | _, _, _, _, _, _, _, _, _, _, _ => .error (errListH r)

/-- Serializing a Habit to its field mapping (pydantic .dict()): every field
is present, enumerations become their literal strings, target_days entries
become plain ints. -/
def Habit.serialize (h : Habit) : RawHabit :=
  { name := some h.name
    description := h.description
    frequency := some h.frequency.toStr
    target_days := some (h.target_days.map (fun l => l.map RawDay.int))
    color := some h.color
    icon := some h.icon
    id := some h.id
    user_id := some h.user_id
    status := some h.status.toStr
    created_at := some h.created_at
    updated_at := some h.updated_at }

/-- The raw inbound mapping for UserRegistration. -/
structure RawUserRegistration where
  email : Option String
  password : Option String
  name : Option String
deriving DecidableEq

/-- The validated UserRegistration record: email EmailStr,
password = Field(..., min_length=8), name = Field(..., min_length=1). -/
structure UserRegistration where
  email : String
  password : String
  name : String
deriving DecidableEq

/-- password: str = Field(..., min_length=8) -/
def checkPassword (v : Option String) : Except FieldError String :=
  match v with
  | none => .error ⟨"password", "field required"⟩
  | some s =>
    if s.length < 8 then .error ⟨"password", "ensure this value has at least 8 characters"⟩
    else .ok s

/-- name: str = Field(..., min_length=1) on UserRegistration. -/
def checkRegName (v : Option String) : Except FieldError String :=
  match v with
  | none => .error ⟨"name", "field required"⟩
  | some s =>
    if s.length < 1 then .error ⟨"name", "ensure this value has at least 1 characters"⟩
    else .ok s

def errListUR (r : RawUserRegistration) : List FieldError :=
  vErrs (checkEmail r.email) ++ vErrs (checkPassword r.password) ++
  vErrs (checkRegName r.name)

/-- Constructing a UserRegistration from a raw mapping. -/
def mkUserRegistration (r : RawUserRegistration) :
    Except (List FieldError) UserRegistration :=
  match checkEmail r.email, checkPassword r.password, checkRegName r.name with
  | .ok e, .ok p, .ok n => .ok { email := e, password := p, name := n }
  | _, _, _ => .error (errListUR r)

/-- The raw inbound mapping for User. -/
structure RawUser where
  id : Option String
  email : Option String
  name : Option String
  created_at : Option Int
  updated_at : Option Int
deriving DecidableEq

/-- The validated User record. -/
structure User where
  id : String
  email : String
  name : String
  created_at : Int
  updated_at : Int
deriving DecidableEq

def errListU (r : RawUser) : List FieldError :=
  vErrs (checkReqStr "id" r.id) ++ vErrs (checkEmail r.email) ++
  vErrs (checkReqStr "name" r.name) ++ vErrs (checkDatetime "created_at" r.created_at) ++
  vErrs (checkDatetime "updated_at" r.updated_at)

/-- Constructing a User from a raw mapping. -/
def mkUser (r : RawUser) : Except (List FieldError) User :=
  match checkReqStr "id" r.id, checkEmail r.email, checkReqStr "name" r.name,
        checkDatetime "created_at" r.created_at, checkDatetime "updated_at" r.updated_at with
  | .ok i, .ok e, .ok n, .ok ca, .ok ua =>
    .ok { id := i, email := e, name := n, created_at := ca, updated_at := ua }
  | _, _, _, _, _ => .error (errListU r)

/-- The raw inbound mapping for HabitStatistics. last_completed_date is
Optional[date] (implicit default None): absent or null both give none. -/
structure RawHabitStatistics where
  habit_id : Option String
  current_streak : Option Int
  longest_streak : Option Int
  total_completions : Option Int
  completion_rate : Option Rat
  last_completed_date : Option (Option Int)
deriving DecidableEq

/-- The validated HabitStatistics record: plain typed fields, no validators
and no range constraints anywhere. -/
structure HabitStatistics where
  habit_id : String
  current_streak : Int
  longest_streak : Int
  total_completions : Int
  completion_rate : Rat
  last_completed_date : Option Int
deriving DecidableEq

def errListHS (r : RawHabitStatistics) : List FieldError :=
  vErrs (checkReqStr "habit_id" r.habit_id) ++
  vErrs (checkInt "current_streak" r.current_streak) ++
  vErrs (checkInt "longest_streak" r.longest_streak) ++
  vErrs (checkInt "total_completions" r.total_completions) ++
  vErrs (checkFloat "completion_rate" r.completion_rate)

/-- Constructing a HabitStatistics from a raw mapping: only presence of the
required fields is checked; no validator constrains any value. -/
def mkHabitStatistics (r : RawHabitStatistics) :
    Except (List FieldError) HabitStatistics :=
  match checkReqStr "habit_id" r.habit_id, checkInt "current_streak" r.current_streak,
        checkInt "longest_streak" r.longest_streak,
        checkInt "total_completions" r.total_completions,
        checkFloat "completion_rate" r.completion_rate with
  | .ok hid, .ok cs, .ok ls, .ok tc, .ok cr =>
    .ok { habit_id := hid, current_streak := cs, longest_streak := ls,
          total_completions := tc, completion_rate := cr,
          last_completed_date :=
            match r.last_completed_date with
            | none => none
            | some w => w }
  | _, _, _, _, _ => .error (errListHS r)

/-- The invariants of a validated HabitInput, as the source states them:
name length in [1,100], description at most 500 chars, every target day in
[0,6], and color (when present) empty or accepted by the color regex. -/
def HabitInput.Valid (v : HabitInput) : Bool :=
  (1 ≤ v.name.length && v.name.length ≤ 100) &&
  (match v.description with
   | none => true
   | some d => d.length ≤ 500) &&
  (match v.target_days with
   | none => true
   | some l => l.all dayInRange) &&
  (match v.color with
   | none => true
   | some s => (s == "") || hexColorMatch s)

/-! Helper lemmas: characterizations of the constructors. -/

theorem vErrs_nil_iff {α : Type} (x : Except FieldError α) :
    vErrs x = [] ↔ ∃ a, x = .ok a := by
  cases x <;> simp [vErrs]

theorem mkHabitInput_error_eq {r : RawHabitInput} {es : List FieldError}
    (hm : mkHabitInput r = .error es) : es = errListHI r := by
  unfold mkHabitInput at hm
  split at hm
  · cases hm
  · injection hm with h
    exact h.symm

theorem mkHabitInput_ok_iff {r : RawHabitInput} {v : HabitInput} :
    mkHabitInput r = .ok v ↔
      checkName r.name = .ok v.name ∧ checkDescription r.description = .ok v.description ∧
      checkFrequency r.frequency = .ok v.frequency ∧
      checkTargetDays r.target_days = .ok v.target_days ∧
      checkColor r.color = .ok v.color ∧ checkIcon r.icon = .ok v.icon := by
  constructor
  · intro hm
    unfold mkHabitInput at hm
    split at hm
    · injection hm with hv
      subst hv
      refine ⟨?_, ?_, ?_, ?_, ?_, ?_⟩ <;> assumption
    · cases hm
  · rintro ⟨h1, h2, h3, h4, h5, h6⟩
    unfold mkHabitInput
    rw [h1, h2, h3, h4, h5, h6]

theorem mkHabitInput_cases (r : RawHabitInput) :
    (∃ v, mkHabitInput r = .ok v) ∨
      (mkHabitInput r = .error (errListHI r) ∧ errListHI r ≠ []) := by
  rcases hm : mkHabitInput r with es | v
  · right
    have hes := mkHabitInput_error_eq hm
    subst hes
    refine ⟨rfl, ?_⟩
    intro hnil
    unfold errListHI at hnil
    simp only [List.append_eq_nil] at hnil
    obtain ⟨⟨⟨⟨⟨e1, e2⟩, e3⟩, e4⟩, e5⟩, e6⟩ := hnil
    obtain ⟨n, hn⟩ := (vErrs_nil_iff _).mp e1
    obtain ⟨d, hd⟩ := (vErrs_nil_iff _).mp e2
    obtain ⟨f, hf⟩ := (vErrs_nil_iff _).mp e3
    obtain ⟨td, htd⟩ := (vErrs_nil_iff _).mp e4
    obtain ⟨c, hc⟩ := (vErrs_nil_iff _).mp e5
    obtain ⟨i, hi⟩ := (vErrs_nil_iff _).mp e6
    have hok : mkHabitInput r = .ok ⟨n, d, f, td, c, i⟩ :=
      mkHabitInput_ok_iff.mpr ⟨hn, hd, hf, htd, hc, hi⟩
    rw [hok] at hm
    cases hm
  · left
    exact ⟨v, rfl⟩

theorem errListHI_mem {r : RawHabitInput} {e : FieldError}
    (h : checkName r.name = .error e ∨ checkDescription r.description = .error e ∨
         checkFrequency r.frequency = .error e ∨ checkTargetDays r.target_days = .error e ∨
         checkColor r.color = .error e ∨ checkIcon r.icon = .error e) :
    e ∈ errListHI r := by
  rcases h with h | h | h | h | h | h <;> simp [errListHI, vErrs, h]

theorem mkHabit_error_eq {r : RawHabit} {es : List FieldError}
    (hm : mkHabit r = .error es) : es = errListH r := by
  unfold mkHabit at hm
  split at hm
  · cases hm
  · injection hm with h
    exact h.symm

theorem mkHabit_ok_iff {r : RawHabit} {v : Habit} :
    mkHabit r = .ok v ↔
      checkName r.name = .ok v.name ∧ checkDescription r.description = .ok v.description ∧
      checkFrequency r.frequency = .ok v.frequency ∧
      checkTargetDays r.target_days = .ok v.target_days ∧
      checkColor r.color = .ok v.color ∧ checkIcon r.icon = .ok v.icon ∧
      checkReqStr "id" r.id = .ok v.id ∧ checkReqStr "user_id" r.user_id = .ok v.user_id ∧
      checkStatus r.status = .ok v.status ∧
      checkDatetime "created_at" r.created_at = .ok v.created_at ∧
      checkDatetime "updated_at" r.updated_at = .ok v.updated_at := by
  constructor
  · intro hm
    unfold mkHabit at hm
    split at hm
    · injection hm with hv
      subst hv
      refine ⟨?_, ?_, ?_, ?_, ?_, ?_, ?_, ?_, ?_, ?_, ?_⟩ <;> assumption
    · cases hm
  · rintro ⟨h1, h2, h3, h4, h5, h6, h7, h8, h9, h10, h11⟩
    unfold mkHabit
    rw [h1, h2, h3, h4, h5, h6, h7, h8, h9, h10, h11]

theorem mkHabit_cases (r : RawHabit) :
    (∃ v, mkHabit r = .ok v) ∨
      (mkHabit r = .error (errListH r) ∧ errListH r ≠ []) := by
  rcases hm : mkHabit r with es | v
  · right
    have hes := mkHabit_error_eq hm
    subst hes
    refine ⟨rfl, ?_⟩
    intro hnil
    unfold errListH at hnil
    simp only [List.append_eq_nil] at hnil
    obtain ⟨⟨⟨⟨⟨⟨⟨⟨⟨⟨e1, e2⟩, e3⟩, e4⟩, e5⟩, e6⟩, e7⟩, e8⟩, e9⟩, e10⟩, e11⟩ := hnil
    obtain ⟨n, hn⟩ := (vErrs_nil_iff _).mp e1
    obtain ⟨d, hd⟩ := (vErrs_nil_iff _).mp e2
    obtain ⟨f, hf⟩ := (vErrs_nil_iff _).mp e3
    obtain ⟨td, htd⟩ := (vErrs_nil_iff _).mp e4
    obtain ⟨c, hc⟩ := (vErrs_nil_iff _).mp e5
    obtain ⟨i, hi⟩ := (vErrs_nil_iff _).mp e6
    obtain ⟨hid, hhid⟩ := (vErrs_nil_iff _).mp e7
    obtain ⟨uid, huid⟩ := (vErrs_nil_iff _).mp e8
    obtain ⟨st, hst⟩ := (vErrs_nil_iff _).mp e9
    obtain ⟨ca, hca⟩ := (vErrs_nil_iff _).mp e10
    obtain ⟨ua, hua⟩ := (vErrs_nil_iff _).mp e11
    have hok : mkHabit r = .ok ⟨n, d, f, td, c, i, hid, uid, st, ca, ua⟩ :=
      mkHabit_ok_iff.mpr ⟨hn, hd, hf, htd, hc, hi, hhid, huid, hst, hca, hua⟩
    rw [hok] at hm
    cases hm
  · left
    exact ⟨v, rfl⟩

theorem errListH_mem {r : RawHabit} {e : FieldError}
    (h : checkName r.name = .error e ∨ checkDescription r.description = .error e ∨
         checkFrequency r.frequency = .error e ∨ checkTargetDays r.target_days = .error e ∨
         checkColor r.color = .error e ∨ checkIcon r.icon = .error e ∨
         checkReqStr "id" r.id = .error e ∨ checkReqStr "user_id" r.user_id = .error e ∨
         checkStatus r.status = .error e ∨
         checkDatetime "created_at" r.created_at = .error e ∨
         checkDatetime "updated_at" r.updated_at = .error e) :
    e ∈ errListH r := by
  rcases h with h | h | h | h | h | h | h | h | h | h | h <;> simp [errListH, vErrs, h]

theorem mkUserRegistration_ok_iff {r : RawUserRegistration} {v : UserRegistration} :
    mkUserRegistration r = .ok v ↔
      checkEmail r.email = .ok v.email ∧ checkPassword r.password = .ok v.password ∧
      checkRegName r.name = .ok v.name := by
  constructor
  · intro hm
    unfold mkUserRegistration at hm
    split at hm
    · injection hm with hv
      subst hv
      refine ⟨?_, ?_, ?_⟩ <;> assumption
    · cases hm
  · rintro ⟨h1, h2, h3⟩
    unfold mkUserRegistration
    rw [h1, h2, h3]

/-! Helper lemmas: per-field check facts. -/

theorem checkName_ok {v : Option String} {n : String} (h : checkName v = .ok n) :
    v = some n ∧ 1 ≤ n.length ∧ n.length ≤ 100 := by
  unfold checkName at h
  cases v with
  | none => cases h
  | some s =>
    by_cases h1 : s.length < 1
    · simp [h1] at h
    · by_cases h2 : 100 < s.length
      · simp [h1, h2] at h
      · simp only [if_neg h1, if_neg h2] at h
        injection h with h'
        subst h'
        exact ⟨rfl, by omega, by omega⟩

theorem checkName_some_self {n : String} (h1 : 1 ≤ n.length) (h2 : n.length ≤ 100) :
    checkName (some n) = .ok n := by
  simp [checkName, show ¬(n.length < 1) by omega, show ¬(100 < n.length) by omega]

theorem checkDescription_ok {v : Option String} {d : Option String}
    (h : checkDescription v = .ok d) :
    v = d ∧ ∀ s, d = some s → s.length ≤ 500 := by
  unfold checkDescription at h
  cases v with
  | none =>
    injection h with h'
    subst h'
    exact ⟨rfl, by intro s hs; cases hs⟩
  | some s =>
    by_cases h1 : 500 < s.length
    · simp [h1] at h
    · simp only [if_neg h1] at h
      injection h with h'
      subst h'
      refine ⟨rfl, ?_⟩
      intro t ht
      injection ht with ht'
      subst ht'
      omega

theorem checkDescription_self {d : Option String}
    (h : ∀ s, d = some s → s.length ≤ 500) : checkDescription d = .ok d := by
  unfold checkDescription
  cases d with
  | none => rfl
  | some s =>
    simp [checkDescription, show ¬(500 < s.length) by have := h s rfl; omega]

theorem checkFrequency_toStr (f : HabitFrequency) :
    checkFrequency (some f.toStr) = .ok f := by
  cases f <;> rfl

theorem checkStatus_toStr (st : HabitStatus) :
    checkStatus (some st.toStr) = .ok st := by
  cases st <;> rfl

theorem toInt_of_coerce {d : RawDay} {n : Int} (h : RawDay.coerce d = some n) :
    RawDay.toInt d = n := by
  unfold RawDay.toInt
  rw [h]
  rfl

theorem coerceDays_map_int (ds : List Int) :
    coerceDays (ds.map RawDay.int) = some ds := by
  induction ds with
  | nil => rfl
  | cons x xs ih => simp [coerceDays, RawDay.coerce, ih]

theorem coerceDays_toInt {l : List RawDay} {ns : List Int}
    (h : coerceDays l = some ns) : ns = l.map RawDay.toInt := by
  induction l generalizing ns with
  | nil =>
    injection h with h'
    subst h'
    rfl
  | cons d rest ih =>
    simp only [coerceDays] at h
    rcases hc : RawDay.coerce d with _ | n
    · rw [hc] at h
      cases h
    · rcases hr : coerceDays rest with _ | ns2
      · rw [hc, hr] at h
        cases h
      · rw [hc, hr] at h
        injection h with h'
        subst h'
        simp [List.map_cons, toInt_of_coerce hc, ih hr]

theorem coerceDays_none_of_mem {l : List RawDay} {d : RawDay} (hmem : d ∈ l)
    (hbad : RawDay.coerce d = none) : coerceDays l = none := by
  induction l with
  | nil => cases hmem
  | cons d0 rest ih =>
    rcases List.mem_cons.mp hmem with heq | hrest
    · subst heq
      simp [coerceDays, hbad]
    · rcases hc : RawDay.coerce d0 with _ | n <;>
        simp [coerceDays, hc, ih hrest]

theorem checkTargetDays_some_elim {l : List RawDay} {td : Option (List Int)}
    (h : checkTargetDays (some (some l)) = .ok td) :
    ∃ ns, coerceDays l = some ns ∧ td = some ns ∧ ns.all dayInRange = true := by
  simp only [checkTargetDays] at h
  rcases hc : coerceDays l with _ | ns
  · rw [hc] at h
    cases h
  · rw [hc] at h
    by_cases hall : ns.all dayInRange = true
    · simp only [if_pos hall] at h
      injection h with h'
      exact ⟨ns, rfl, h'.symm, hall⟩
    · simp only [if_neg hall] at h
      cases h

theorem checkTargetDays_ok {v : Option (Option (List RawDay))} {td : Option (List Int)}
    (h : checkTargetDays v = .ok td) :
    ∀ ds, td = some ds → ds.all dayInRange = true := by
  intro ds hds
  subst hds
  rcases v with _ | w
  · have h0 : checkTargetDays none = .ok (some []) := rfl
    rw [h0] at h
    injection h with h'
    injection h' with h''
    rw [← h'']
    rfl
  · rcases w with _ | l
    · have h0 : checkTargetDays (some none) = .ok none := rfl
      rw [h0] at h
      injection h with h'
      cases h'
    · obtain ⟨ns, -, hts, hall⟩ := checkTargetDays_some_elim h
      injection hts with h''
      rw [h'']
      exact hall

theorem checkTargetDays_roundtrip {v : Option (Option (List RawDay))}
    {td : Option (List Int)} (h : checkTargetDays v = .ok td) :
    checkTargetDays (some (td.map (fun l => l.map RawDay.int))) = .ok td := by
  rcases td with _ | ds
  · rfl
  · have hall : ds.all dayInRange = true := checkTargetDays_ok h ds rfl
    simp [checkTargetDays, coerceDays_map_int, hall]

theorem specHexMatch_imp (s : String) (h : specHexMatch s = true) :
    hexColorMatch s = true := by
  unfold specHexMatch at h
  simp [hexColorMatch, h]

theorem checkColor_valid {s : String} (h : hexColorMatch s = true) :
    checkColor (some (some s)) = .ok (some s) := by
  unfold checkColor
  simp [h]

theorem checkColor_invalid {s : String} (hne : s ≠ "") (h : hexColorMatch s = false) :
    checkColor (some (some s)) = .error ⟨"color", "Color must be a valid hex color code"⟩ := by
  unfold checkColor
  simp [h, hne]

theorem checkColor_ok {v : Option (Option String)} {c : Option String}
    (h : checkColor v = .ok c) :
    ∀ s, c = some s → ((s == "") || hexColorMatch s) = true := by
  intro s hs
  subst hs
  rcases v with _ | w
  · have hdef : checkColor none = .ok (some "#3B82F6") := by decide
    rw [hdef] at h
    injection h with h'
    injection h' with h''
    subst h''
    decide
  · rcases w with _ | t
    · have hdef : checkColor (some none) = .ok none := rfl
      rw [hdef] at h
      injection h with h'
      cases h'
    · simp only [checkColor] at h
      rcases hbe : (t == "") with _ | _ <;> rcases hbm : hexColorMatch t with _ | _ <;>
        rw [hbe, hbm] at h <;> simp only [Bool.not_false, Bool.not_true, Bool.and_true,
          Bool.and_false, Bool.true_and, Bool.false_and, if_true, if_false] at h <;>
        first
        | (injection h with h'; injection h' with h''; subst h''; simp [hbe, hbm])
        | cases h

theorem checkColor_roundtrip {v : Option (Option String)} {c : Option String}
    (h : checkColor v = .ok c) : checkColor (some c) = .ok c := by
  rcases c with _ | s
  · rfl
  · have hv := checkColor_ok h s rfl
    simp only [checkColor]
    rcases hbe : (s == "") with _ | _ <;> rcases hbm : hexColorMatch s with _ | _ <;>
      simp [hbe, hbm] at hv ⊢

theorem checkIcon_some (i : Option String) : checkIcon (some i) = .ok i := rfl

theorem checkReqStr_some (f s : String) : checkReqStr f (some s) = .ok s := rfl

theorem checkDatetime_some (f : String) (t : Int) : checkDatetime f (some t) = .ok t := rfl

theorem dayInRange_iff (n : Int) : dayInRange n = true ↔ 0 ≤ n ∧ n ≤ 6 := by
  simp [dayInRange]

theorem checkTargetDays_coerce_reject {l : List RawDay} (h : coerceDays l = none) :
    checkTargetDays (some (some l)) =
      .error ⟨"target_days", "value is not a valid integer"⟩ := by
  simp [checkTargetDays, h]

theorem checkTargetDays_range_reject {l : List RawDay} {ns : List Int} {d : Int}
    (hc : coerceDays l = some ns) (hmem : d ∈ ns) (hd : dayInRange d = false) :
    checkTargetDays (some (some l)) =
      .error ⟨"target_days", "target_days must contain integers between 0 and 6"⟩ := by
  have hnall : ¬(ns.all dayInRange = true) := by
    intro hall
    rw [List.all_eq_true] at hall
    have hdm := hall d hmem
    rw [hd] at hdm
    cases hdm
  simp [checkTargetDays, hc, hnall]

theorem checkTargetDays_ints (ds : List Int) (hall : ds.all dayInRange = true) :
    checkTargetDays (some (some (ds.map RawDay.int))) = .ok (some ds) := by
  simp [checkTargetDays, coerceDays_map_int, hall]

theorem checkTargetDays_some_ok {l : List RawDay} {td : Option (List Int)}
    (h : checkTargetDays (some (some l)) = .ok td) : td = some (l.map RawDay.toInt) := by
  obtain ⟨ns, hc, hts, -⟩ := checkTargetDays_some_elim h
  rw [hts, coerceDays_toInt hc]

theorem checkColor_ok_val {w : Option String} {c : Option String}
    (h : checkColor (some w) = .ok c) : c = w := by
  rcases w with _ | t
  · injection h with h'
    exact h'.symm
  · simp only [checkColor] at h
    by_cases hg : ((!(t == "")) && !(hexColorMatch t)) = true
    · rw [if_pos hg] at h
      cases h
    · rw [if_neg hg] at h
      injection h with h'
      exact h'.symm

theorem checkEmail_ok {v : Option String} {e : String} (h : checkEmail v = .ok e) :
    v = some e ∧ emailValid e = true := by
  unfold checkEmail at h
  cases v with
  | none => cases h
  | some s =>
    by_cases hv : emailValid s = true
    · simp only [hv, if_true] at h
      injection h with h'
      subst h'
      exact ⟨rfl, hv⟩
    · simp only [hv, if_false] at h
      cases h

theorem checkEmail_mk {e : String} (h : emailValid e = true) :
    checkEmail (some e) = .ok e := by
  simp [checkEmail, h]

theorem checkPassword_ok {v : Option String} {p : String} (h : checkPassword v = .ok p) :
    v = some p ∧ 8 ≤ p.length := by
  unfold checkPassword at h
  cases v with
  | none => cases h
  | some s =>
    by_cases hl : s.length < 8
    · simp only [if_pos hl] at h
      cases h
    · simp only [if_neg hl] at h
      injection h with h'
      subst h'
      exact ⟨rfl, by omega⟩

theorem checkPassword_mk {p : String} (h : 8 ≤ p.length) :
    checkPassword (some p) = .ok p := by
  simp [checkPassword, show ¬(p.length < 8) by omega]

theorem checkRegName_ok {v : Option String} {n : String} (h : checkRegName v = .ok n) :
    v = some n ∧ 1 ≤ n.length := by
  unfold checkRegName at h
  cases v with
  | none => cases h
  | some s =>
    by_cases hl : s.length < 1
    · simp only [if_pos hl] at h
      cases h
    · simp only [if_neg hl] at h
      injection h with h'
      subst h'
      exact ⟨rfl, by omega⟩

theorem checkRegName_mk {n : String} (h : 1 ≤ n.length) :
    checkRegName (some n) = .ok n := by
  simp [checkRegName, show ¬(n.length < 1) by omega]

theorem mkHabitInput_ok_valid {r : RawHabitInput} {v : HabitInput}
    (h : mkHabitInput r = .ok v) : v.Valid = true := by
  obtain ⟨hn, hd, hf, htd, hc, hi⟩ := mkHabitInput_ok_iff.mp h
  obtain ⟨-, hn1, hn2⟩ := checkName_ok hn
  obtain ⟨-, hd500⟩ := checkDescription_ok hd
  have htdr := checkTargetDays_ok htd
  have hcr := checkColor_ok hc
  unfold HabitInput.Valid
  simp only [Bool.and_eq_true]
  refine ⟨⟨⟨by simp only [Bool.and_eq_true, decide_eq_true_eq]; omega, ?_⟩, ?_⟩, ?_⟩
  · cases hdv : v.description with
    | none => rfl
    | some s =>
      have := hd500 s hdv
      simp only [decide_eq_true_eq]
      omega
  · cases htv : v.target_days with
    | none => rfl
    | some ds => exact htdr ds htv
  · cases hcv : v.color with
    | none => rfl
    | some s => exact hcr s hcv

/-! Claim theorems. -/

/-- C1 counterexample: the claim says every string not matching
`^#[0-9A-Fa-f]{6}$` - the empty string included - is rejected as a color.
The code accepts the empty string (it is falsy, so `if v and ...` skips the
check) and also accepts a valid hex color followed by one trailing newline
(Python `$` in `re.match` matches before a trailing newline), and both
constructed records carry a color that does not match the pattern. -/
theorem c1_color_empty_and_newline_accepted :
    mkHabitInput ⟨some "Read", none, some "daily", none, some (some ""), none⟩ =
      .ok ⟨"Read", none, .daily, some [], some "", some "⭐"⟩ ∧
    mkHabitInput ⟨some "Read", none, some "daily", none, some (some "#123456\n"), none⟩ =
      .ok ⟨"Read", none, .daily, some [], some "#123456\n", some "⭐"⟩ ∧
    specHexMatch "" = false ∧ specHexMatch "#123456\n" = false := by
  exact ⟨by decide, by decide, by decide, by decide⟩

/-- C1 (amended): for every NON-EMPTY color string that Python
`re.match(r"^#[0-9A-Fa-f]{6}$", ...)` rejects (that is, not a `#` followed by
six hex digits, up to one trailing newline), constructing a HabitInput or a
Habit with that color fails with a validation error naming the color field;
equivalently, every successfully constructed record whose color is present is
either the empty string or accepted by that regex match. -/
theorem color_invalid_rejected (r : RawHabitInput) (rh : RawHabit) (s : String)
    (hs : r.color = some (some s)) (hsh : rh.color = some (some s))
    (hne : s ≠ "") (hnm : hexColorMatch s = false) :
    (∃ es, mkHabitInput r = .error es ∧
        FieldError.mk "color" "Color must be a valid hex color code" ∈ es) ∧
    (∃ es, mkHabit rh = .error es ∧
        FieldError.mk "color" "Color must be a valid hex color code" ∈ es) ∧
    (∀ (r2 : RawHabitInput) (v : HabitInput), mkHabitInput r2 = .ok v →
      ∀ t, v.color = some t → t = "" ∨ hexColorMatch t = true) := by
  have hce : checkColor r.color =
      .error ⟨"color", "Color must be a valid hex color code"⟩ := by
    rw [hs]
    exact checkColor_invalid hne hnm
  have hceh : checkColor rh.color =
      .error ⟨"color", "Color must be a valid hex color code"⟩ := by
    rw [hsh]
    exact checkColor_invalid hne hnm
  refine ⟨?_, ?_, ?_⟩
  · rcases mkHabitInput_cases r with ⟨v, hv⟩ | ⟨herr, -⟩
    · have := (mkHabitInput_ok_iff.mp hv).2.2.2.2.1
      rw [hce] at this
      cases this
    · exact ⟨errListHI r, herr,
        errListHI_mem (Or.inr (Or.inr (Or.inr (Or.inr (Or.inl hce)))))⟩
  · rcases mkHabit_cases rh with ⟨v, hv⟩ | ⟨herr, -⟩
    · have := (mkHabit_ok_iff.mp hv).2.2.2.2.1
      rw [hceh] at this
      cases this
    · exact ⟨errListH rh, herr,
        errListH_mem (Or.inr (Or.inr (Or.inr (Or.inr (Or.inl hceh)))))⟩
  · intro r2 v hv t ht
    have := checkColor_ok (mkHabitInput_ok_iff.mp hv).2.2.2.2.1 t ht
    rcases Bool.or_eq_true_iff.mp this with he | he
    · left
      exact (beq_iff_eq ..).mp he
    · right
      exact he

/-- Witness for C1 (amended) at the concrete invalid color "red". -/
theorem color_invalid_rejected_witness :
    ∃ es, mkHabitInput ⟨some "Read", none, some "daily", none, some (some "red"), none⟩ =
        .error es ∧
      FieldError.mk "color" "Color must be a valid hex color code" ∈ es := by
  exact (color_invalid_rejected
    ⟨some "Read", none, some "daily", none, some (some "red"), none⟩
    ⟨some "Read", none, some "daily", none, some (some "red"), none,
     some "h1", some "u1", none, some 0, some 0⟩
    "red" rfl rfl (by decide) (by decide)).1

/-- C2: for every string in the language of `^#[0-9A-Fa-f]{6}$`, construction
with that color succeeds (on an otherwise-valid input) and the resulting
record preserves the exact string, with no case normalization, for both
HabitInput and Habit. -/
theorem color_valid_preserved (r : RawHabitInput) (v : HabitInput) (s : String)
    (hok : mkHabitInput r = .ok v) (hs : specHexMatch s = true) :
    mkHabitInput { r with color := some (some s) } = .ok { v with color := some s } ∧
    ∀ (rh : RawHabit) (vh : Habit), mkHabit rh = .ok vh →
      mkHabit { rh with color := some (some s) } = .ok { vh with color := some s } := by
  have hcv : checkColor (some (some s)) = .ok (some s) :=
    checkColor_valid (specHexMatch_imp s hs)
  constructor
  · obtain ⟨hn, hd, hf, htd, -, hi⟩ := mkHabitInput_ok_iff.mp hok
    exact mkHabitInput_ok_iff.mpr ⟨hn, hd, hf, htd, hcv, hi⟩
  · intro rh vh hokh
    obtain ⟨hn, hd, hf, htd, -, hi, hid, huid, hst, hca, hua⟩ := mkHabit_ok_iff.mp hokh
    exact mkHabit_ok_iff.mpr ⟨hn, hd, hf, htd, hcv, hi, hid, huid, hst, hca, hua⟩

/-- Witness for C2 at the mixed-case color "#aBc019". -/
theorem color_valid_preserved_witness :
    mkHabitInput ⟨some "Read", none, some "daily", none, some (some "#aBc019"), none⟩ =
      .ok ⟨"Read", none, .daily, some [], some "#aBc019", some "⭐"⟩ := by
  exact (color_valid_preserved
    ⟨some "Read", none, some "daily", none, none, none⟩
    ⟨"Read", none, .daily, some [], some "#3B82F6", some "⭐"⟩
    "#aBc019" (by decide) (by decide)).1

/-- C3 counterexample: the claim says any target_days sequence containing a
non-integer element fails. But pydantic coerces List[int] items BEFORE the
post-validator runs, so the non-integer entries "2" (a string) and True (a
bool) are accepted, construction succeeds, and the record holds the coerced
integers [2, 1]. -/
theorem c3_target_days_coercion_accepted :
    mkHabitInput ⟨some "Read", none, some "daily",
        some (some [RawDay.str "2", RawDay.bool true]), none, none⟩ =
      .ok ⟨"Read", none, .daily, some [2, 1], some "#3B82F6", some "⭐"⟩ := by
  decide

/-- C3 (amended): a target_days entry is first coerced to int by pydantic
(ints kept, bools as 0/1, finite floats truncated toward zero, decimal
strings parsed); HabitInput and Habit construction fails with a target_days
validation error when some entry is not coercible (with the int-parse
reason) or some coerced value lies outside [0, 6] (with the validator's
reason, so in particular integer entries -1 and 7 still fail); and when
construction succeeds the record holds exactly the coerced integers, so a
coercible non-integer entry such as the string "2" is accepted rather than
rejected. -/
theorem target_days_invalid_rejected (r : RawHabitInput) (rh : RawHabit)
    (l : List RawDay)
    (hr : r.target_days = some (some l)) (hrh : rh.target_days = some (some l)) :
    (∀ d ∈ l, RawDay.coerce d = none →
      (∃ es, mkHabitInput r = .error es ∧
          FieldError.mk "target_days" "value is not a valid integer" ∈ es) ∧
      (∃ es, mkHabit rh = .error es ∧
          FieldError.mk "target_days" "value is not a valid integer" ∈ es)) ∧
    (∀ ns, coerceDays l = some ns → ∀ d ∈ ns, dayInRange d = false →
      (∃ es, mkHabitInput r = .error es ∧
          FieldError.mk "target_days" "target_days must contain integers between 0 and 6" ∈ es) ∧
      (∃ es, mkHabit rh = .error es ∧
          FieldError.mk "target_days" "target_days must contain integers between 0 and 6" ∈ es)) ∧
    (∀ v, mkHabitInput r = .ok v → v.target_days = some (l.map RawDay.toInt)) ∧
    (∀ vh, mkHabit rh = .ok vh → vh.target_days = some (l.map RawDay.toInt)) := by
  refine ⟨?_, ?_, ?_, ?_⟩
  · intro d hmem hbad
    have herrv : checkTargetDays r.target_days =
        .error ⟨"target_days", "value is not a valid integer"⟩ := by
      rw [hr]
      exact checkTargetDays_coerce_reject (coerceDays_none_of_mem hmem hbad)
    have herrh : checkTargetDays rh.target_days =
        .error ⟨"target_days", "value is not a valid integer"⟩ := by
      rw [hrh]
      exact checkTargetDays_coerce_reject (coerceDays_none_of_mem hmem hbad)
    constructor
    · rcases mkHabitInput_cases r with ⟨v, hv⟩ | ⟨herr, -⟩
      · have := (mkHabitInput_ok_iff.mp hv).2.2.2.1
        rw [herrv] at this
        cases this
      · exact ⟨errListHI r, herr, errListHI_mem (Or.inr (Or.inr (Or.inr (Or.inl herrv))))⟩
    · rcases mkHabit_cases rh with ⟨v, hv⟩ | ⟨herr, -⟩
      · have := (mkHabit_ok_iff.mp hv).2.2.2.1
        rw [herrh] at this
        cases this
      · exact ⟨errListH rh, herr, errListH_mem (Or.inr (Or.inr (Or.inr (Or.inl herrh))))⟩
  · intro ns hns d hmem hd
    have herrv : checkTargetDays r.target_days =
        .error ⟨"target_days", "target_days must contain integers between 0 and 6"⟩ := by
      rw [hr]
      exact checkTargetDays_range_reject hns hmem hd
    have herrh : checkTargetDays rh.target_days =
        .error ⟨"target_days", "target_days must contain integers between 0 and 6"⟩ := by
      rw [hrh]
      exact checkTargetDays_range_reject hns hmem hd
    constructor
    · rcases mkHabitInput_cases r with ⟨v, hv⟩ | ⟨herr, -⟩
      · have := (mkHabitInput_ok_iff.mp hv).2.2.2.1
        rw [herrv] at this
        cases this
      · exact ⟨errListHI r, herr, errListHI_mem (Or.inr (Or.inr (Or.inr (Or.inl herrv))))⟩
    · rcases mkHabit_cases rh with ⟨v, hv⟩ | ⟨herr, -⟩
      · have := (mkHabit_ok_iff.mp hv).2.2.2.1
        rw [herrh] at this
        cases this
      · exact ⟨errListH rh, herr, errListH_mem (Or.inr (Or.inr (Or.inr (Or.inl herrh))))⟩
  · intro v hv
    have htd := (mkHabitInput_ok_iff.mp hv).2.2.2.1
    rw [hr] at htd
    exact checkTargetDays_some_ok htd
  · intro vh hvh
    have htd := (mkHabit_ok_iff.mp hvh).2.2.2.1
    rw [hrh] at htd
    exact checkTargetDays_some_ok htd

/-- Witness for C3 (amended): the non-coercible entry "abc" fails with the
int-parse reason, and the out-of-range integer entry 7 fails with the
validator reason, at concrete inputs. -/
theorem target_days_invalid_rejected_witness :
    (∃ es, mkHabitInput ⟨some "Read", none, some "daily",
        some (some [RawDay.str "abc"]), none, none⟩ = .error es ∧
      FieldError.mk "target_days" "value is not a valid integer" ∈ es) ∧
    (∃ es, mkHabitInput ⟨some "Read", none, some "daily",
        some (some [RawDay.int 7]), none, none⟩ = .error es ∧
      FieldError.mk "target_days" "target_days must contain integers between 0 and 6" ∈ es) := by
  constructor
  · exact ((target_days_invalid_rejected
      ⟨some "Read", none, some "daily", some (some [RawDay.str "abc"]), none, none⟩
      ⟨some "Read", none, some "daily", some (some [RawDay.str "abc"]), none, none,
       some "h1", some "u1", none, some 0, some 0⟩
      [RawDay.str "abc"] rfl rfl).1
      (RawDay.str "abc") (by decide) (by decide)).1
  · exact ((target_days_invalid_rejected
      ⟨some "Read", none, some "daily", some (some [RawDay.int 7]), none, none⟩
      ⟨some "Read", none, some "daily", some (some [RawDay.int 7]), none, none,
       some "h1", some "u1", none, some 0, some 0⟩
      [RawDay.int 7] rfl rfl).2.1
      [7] (by decide) 7 (by decide) (by decide)).1

/-- C4: a target_days sequence of integers all within [0, 6] is accepted on an
otherwise-valid input, and the validated record holds exactly that sequence,
element for element and in order, for both HabitInput and Habit. -/
theorem target_days_valid_preserved (r : RawHabitInput) (v : HabitInput)
    (ds : List Int) (hok : mkHabitInput r = .ok v)
    (hall : ∀ d ∈ ds, 0 ≤ d ∧ d ≤ 6) :
    mkHabitInput { r with target_days := some (some (ds.map RawDay.int)) } =
      .ok { v with target_days := some ds } ∧
    ∀ (rh : RawHabit) (vh : Habit), mkHabit rh = .ok vh →
      mkHabit { rh with target_days := some (some (ds.map RawDay.int)) } =
        .ok { vh with target_days := some ds } := by
  have hallb : ds.all dayInRange = true := by
    rw [List.all_eq_true]
    intro d hd
    exact (dayInRange_iff d).mpr (hall d hd)
  have htv : checkTargetDays (some (some (ds.map RawDay.int))) = .ok (some ds) :=
    checkTargetDays_ints ds hallb
  constructor
  · obtain ⟨hn, hd, hf, -, hc, hi⟩ := mkHabitInput_ok_iff.mp hok
    exact mkHabitInput_ok_iff.mpr ⟨hn, hd, hf, htv, hc, hi⟩
  · intro rh vh hokh
    obtain ⟨hn, hd, hf, -, hc, hi, hid, huid, hst, hca, hua⟩ := mkHabit_ok_iff.mp hokh
    exact mkHabit_ok_iff.mpr ⟨hn, hd, hf, htv, hc, hi, hid, huid, hst, hca, hua⟩

/-- Witness for C4 at the sequence [6, 0, 3, 3]. -/
theorem target_days_valid_preserved_witness :
    mkHabitInput ⟨some "Read", none, some "weekly",
        some (some [RawDay.int 6, RawDay.int 0, RawDay.int 3, RawDay.int 3]), none, none⟩ =
      .ok ⟨"Read", none, .weekly, some [6, 0, 3, 3], some "#3B82F6", some "⭐"⟩ := by
  exact (target_days_valid_preserved
    ⟨some "Read", none, some "weekly", none, none, none⟩
    ⟨"Read", none, .weekly, some [], some "#3B82F6", some "⭐"⟩
    [6, 0, 3, 3] (by decide) (by decide)).1

/-- C5 counterexample: the claim says an explicitly supplied empty value is
kept for color, icon, target_days AND status; but status is the literal
active|archived, so supplying the empty string makes Habit construction fail
outright - no record keeping the empty value exists. -/
theorem c5_status_empty_rejected :
    mkHabit ⟨some "Run", none, some "daily", none, none, none, some "h1", some "u1",
             some "", some 0, some 0⟩ =
      .error [⟨"status", "unexpected value; permitted: active, archived"⟩] := by
  decide

/-- C5 (amended): absent color, icon, target_days and status default to
#3B82F6, the star glyph, the empty sequence and active respectively; a
present-but-empty color, icon or target_days value is kept as supplied (more
generally any present color/icon string and any present target_days sequence
is kept, never replaced by the default); but a status supplied as the empty
string fails validation instead of being kept or defaulted. -/
theorem defaults_policy (r : RawHabit) (v : Habit) (hmk : mkHabit r = .ok v) :
    (r.color = none → v.color = some "#3B82F6") ∧
    (r.icon = none → v.icon = some "⭐") ∧
    (r.target_days = none → v.target_days = some []) ∧
    (r.status = none → v.status = .active) ∧
    (∀ s, r.color = some (some s) → v.color = some s) ∧
    (∀ s, r.icon = some (some s) → v.icon = some s) ∧
    (∀ l, r.target_days = some (some l) → v.target_days = some (l.map RawDay.toInt)) ∧
    (∀ rb : RawHabit, rb.status = some "" → ∀ w, mkHabit rb ≠ .ok w) := by
  obtain ⟨hn, hd, hf, htd, hc, hi, hid, huid, hst, hca, hua⟩ := mkHabit_ok_iff.mp hmk
  refine ⟨?_, ?_, ?_, ?_, ?_, ?_, ?_, ?_⟩
  · intro h0
    rw [h0] at hc
    have : checkColor none = .ok (some "#3B82F6") := by decide
    rw [this] at hc
    injection hc with h'
    exact h'.symm
  · intro h0
    rw [h0] at hi
    injection hi with h'
    exact h'.symm
  · intro h0
    rw [h0] at htd
    injection htd with h'
    exact h'.symm
  · intro h0
    rw [h0] at hst
    injection hst with h'
    exact h'.symm
  · intro s h0
    rw [h0] at hc
    exact (checkColor_ok_val hc).symm ▸ rfl
  · intro s h0
    rw [h0] at hi
    injection hi with h'
    exact h'.symm
  · intro l h0
    rw [h0] at htd
    exact checkTargetDays_some_ok htd
  · intro rb hb w hw
    have hstw := (mkHabit_ok_iff.mp hw).2.2.2.2.2.2.2.2.1
    rw [hb] at hstw
    have : checkStatus (some "") =
        .error ⟨"status", "unexpected value; permitted: active, archived"⟩ := by decide
    rw [this] at hstw
    cases hstw

/-- Witness for C5 (amended): all four fields absent yield the documented
defaults. -/
theorem defaults_policy_witness :
    (⟨"Run", none, HabitFrequency.daily, some [], some "#3B82F6", some "⭐",
      "h1", "u1", HabitStatus.active, 0, 0⟩ : Habit).color = some "#3B82F6" ∧
    (⟨"Run", none, HabitFrequency.daily, some [], some "#3B82F6", some "⭐",
      "h1", "u1", HabitStatus.active, 0, 0⟩ : Habit).icon = some "⭐" ∧
    (⟨"Run", none, HabitFrequency.daily, some [], some "#3B82F6", some "⭐",
      "h1", "u1", HabitStatus.active, 0, 0⟩ : Habit).target_days = some [] ∧
    (⟨"Run", none, HabitFrequency.daily, some [], some "#3B82F6", some "⭐",
      "h1", "u1", HabitStatus.active, 0, 0⟩ : Habit).status = HabitStatus.active := by
  have h := defaults_policy
    ⟨some "Run", none, some "daily", none, none, none, some "h1", some "u1",
     none, some 0, some 0⟩
    ⟨"Run", none, .daily, some [], some "#3B82F6", some "⭐", "h1", "u1", .active, 0, 0⟩
    (by decide)
  exact ⟨h.1 rfl, h.2.1 rfl, h.2.2.1 rfl, h.2.2.2.1 rfl⟩

/-- C6: UserRegistration construction succeeds exactly when all three fields
are present, the email is syntactically valid, the password has length at
least 8, and the name is non-empty; in particular a 7-character password is
rejected and an 8-character one is accepted. -/
theorem user_registration_password_policy (r : RawUserRegistration) :
    (∃ v, mkUserRegistration r = .ok v) ↔
      ∃ e p n, r.email = some e ∧ r.password = some p ∧ r.name = some n ∧
        emailValid e = true ∧ 8 ≤ p.length ∧ 1 ≤ n.length := by
  constructor
  · rintro ⟨v, hv⟩
    obtain ⟨he, hp, hn⟩ := mkUserRegistration_ok_iff.mp hv
    obtain ⟨he1, he2⟩ := checkEmail_ok he
    obtain ⟨hp1, hp2⟩ := checkPassword_ok hp
    obtain ⟨hn1, hn2⟩ := checkRegName_ok hn
    exact ⟨v.email, v.password, v.name, he1, hp1, hn1, he2, hp2, hn2⟩
  · rintro ⟨e, p, n, he, hp, hn, hev, hpl, hnl⟩
    refine ⟨⟨e, p, n⟩, mkUserRegistration_ok_iff.mpr ⟨?_, ?_, ?_⟩⟩
    · rw [he]
      exact checkEmail_mk hev
    · rw [hp]
      exact checkPassword_mk hpl
    · rw [hn]
      exact checkRegName_mk hnl

/-- Witness for C6: the 8-character password boundary succeeds and the
7-character one fails, at a concrete valid email and name. -/
theorem user_registration_password_policy_witness :
    (∃ v, mkUserRegistration ⟨some "a@b.co", some "12345678", some "Ada"⟩ = .ok v) ∧
    ¬(∃ v, mkUserRegistration ⟨some "a@b.co", some "1234567", some "Ada"⟩ = .ok v) := by
  constructor
  · exact (user_registration_password_policy
      ⟨some "a@b.co", some "12345678", some "Ada"⟩).mpr
      ⟨"a@b.co", "12345678", "Ada", rfl, rfl, rfl, by decide, by decide, by decide⟩
  · intro hv
    obtain ⟨e, p, n, he, hp, hn, hev, hpl, hnl⟩ :=
      (user_registration_password_policy ⟨some "a@b.co", some "1234567", some "Ada"⟩).mp hv
    injection hp with hp'
    rw [← hp'] at hpl
    exact absurd hpl (by decide)

/-- C7: serializing a successfully constructed Habit to its field mapping and
reconstructing from that mapping succeeds and returns the same record,
field for field. -/
theorem habit_roundtrip (r : RawHabit) (h : Habit) (hmk : mkHabit r = .ok h) :
    mkHabit h.serialize = .ok h := by
  obtain ⟨hn, hd, hf, htd, hc, hi, hid, huid, hst, hca, hua⟩ := mkHabit_ok_iff.mp hmk
  obtain ⟨-, hn1, hn2⟩ := checkName_ok hn
  obtain ⟨-, hd500⟩ := checkDescription_ok hd
  exact mkHabit_ok_iff.mpr
    ⟨checkName_some_self hn1 hn2, checkDescription_self hd500,
     checkFrequency_toStr h.frequency, checkTargetDays_roundtrip htd,
     checkColor_roundtrip hc, checkIcon_some h.icon,
     checkReqStr_some "id" h.id, checkReqStr_some "user_id" h.user_id,
     checkStatus_toStr h.status, checkDatetime_some "created_at" h.created_at,
     checkDatetime_some "updated_at" h.updated_at⟩

/-- Witness for C7 at a concrete Habit using every non-default field. -/
theorem habit_roundtrip_witness :
    mkHabit (Habit.serialize
      ⟨"Run", some "5k", .custom, some [1, 3], some "#0aF9bC", some "R",
       "h1", "u1", .archived, 11, 22⟩) =
      .ok ⟨"Run", some "5k", .custom, some [1, 3], some "#0aF9bC", some "R",
           "h1", "u1", .archived, 11, 22⟩ := by
  exact habit_roundtrip
    ⟨some "Run", some "5k", some "custom", some (some [RawDay.int 1, RawDay.int 3]),
     some (some "#0aF9bC"), some (some "R"), some "h1", some "u1", some "archived",
     some 11, some 22⟩
    ⟨"Run", some "5k", .custom, some [1, 3], some "#0aF9bC", some "R",
     "h1", "u1", .archived, 11, 22⟩
    (by decide)

/-- C8: HabitInput construction is all-or-nothing: a produced record
satisfies every field invariant, and a failure carries a non-empty error list
that contains the (field, reason) pair of every violated field; ok and error
are mutually exclusive, so no partial record ever escapes. -/
theorem habitinput_all_or_nothing (r : RawHabitInput) :
    (∀ v, mkHabitInput r = .ok v → HabitInput.Valid v = true) ∧
    (∀ es, mkHabitInput r = .error es → es ≠ [] ∧
      ∀ e, (checkName r.name = .error e ∨ checkDescription r.description = .error e ∨
            checkFrequency r.frequency = .error e ∨
            checkTargetDays r.target_days = .error e ∨
            checkColor r.color = .error e ∨ checkIcon r.icon = .error e) → e ∈ es) := by
  constructor
  · intro v hv
    exact mkHabitInput_ok_valid hv
  · intro es hes
    have heq := mkHabitInput_error_eq hes
    subst heq
    constructor
    · rcases mkHabitInput_cases r with ⟨v, hv⟩ | ⟨-, hne⟩
      · rw [hv] at hes
        cases hes
      · exact hne
    · intro e he
      exact errListHI_mem he

/-- Witness for C8 at an input violating both the name and the color field:
the error list is non-empty and contains the color violation. -/
theorem habitinput_all_or_nothing_witness :
    ([⟨"name", "field required"⟩,
      ⟨"color", "Color must be a valid hex color code"⟩] : List FieldError) ≠ [] ∧
    FieldError.mk "color" "Color must be a valid hex color code" ∈
      ([⟨"name", "field required"⟩,
        ⟨"color", "Color must be a valid hex color code"⟩] : List FieldError) := by
  have h := (habitinput_all_or_nothing
    ⟨none, none, some "daily", none, some (some "red"), none⟩).2
    [⟨"name", "field required"⟩, ⟨"color", "Color must be a valid hex color code"⟩]
    (by decide)
  exact ⟨h.1, h.2 _ (Or.inr (Or.inr (Or.inr (Or.inr (Or.inl (by decide))))))⟩

/-- C9: every embedded constructor of the layer is a pure function of its
input mapping: equal raw inputs give equal results, whether the shared result
is a validated record or a validation error. -/
theorem constructors_deterministic (r1 r2 : RawHabitInput) (h1 : r1 = r2)
    (s1 s2 : RawHabit) (h2 : s1 = s2) (u1 u2 : RawUser) (h3 : u1 = u2)
    (q1 q2 : RawUserRegistration) (h4 : q1 = q2)
    (t1 t2 : RawHabitStatistics) (h5 : t1 = t2) :
    mkHabitInput r1 = mkHabitInput r2 ∧ mkHabit s1 = mkHabit s2 ∧
    mkUser u1 = mkUser u2 ∧ mkUserRegistration q1 = mkUserRegistration q2 ∧
    mkHabitStatistics t1 = mkHabitStatistics t2 := by
  subst h1
  subst h2
  subst h3
  subst h4
  subst h5
  exact ⟨rfl, rfl, rfl, rfl, rfl⟩

/-- Witness for C9 at concrete equal inputs. -/
theorem constructors_deterministic_witness :
    mkHabitInput ⟨some "Run", none, some "daily", none, none, none⟩ =
      mkHabitInput ⟨some "Run", none, some "daily", none, none, none⟩ := by
  exact (constructors_deterministic
    ⟨some "Run", none, some "daily", none, none, none⟩
    ⟨some "Run", none, some "daily", none, none, none⟩ rfl
    ⟨some "Run", none, some "daily", none, none, none, some "h1", some "u1",
     none, some 0, some 0⟩
    ⟨some "Run", none, some "daily", none, none, none, some "h1", some "u1",
     none, some 0, some 0⟩ rfl
    ⟨some "u1", some "a@b.co", some "Ada", some 0, some 0⟩
    ⟨some "u1", some "a@b.co", some "Ada", some 0, some 0⟩ rfl
    ⟨some "a@b.co", some "12345678", some "Ada"⟩
    ⟨some "a@b.co", some "12345678", some "Ada"⟩ rfl
    ⟨some "h1", some 0, some 0, some 0, some 0, none⟩
    ⟨some "h1", some 0, some 0, some 0, some 0, none⟩ rfl).1

/-- C10: HabitStatistics construction imposes no range constraint at all:
any integers (negative included) for the streak and completion counters and
any rational completion_rate (below 0 or above 1 included) are accepted
verbatim. -/
theorem habit_statistics_unconstrained (hid : String) (c l t : Int) (rate : Rat)
    (last : Option Int) :
    mkHabitStatistics ⟨some hid, some c, some l, some t, some rate, some last⟩ =
      .ok ⟨hid, c, l, t, rate, last⟩ := rfl

end HabitCraft
